import Mathlib

/-!
Shallow embedding of the request-execution pipeline of the
`tripadvisor-client` TypeScript repository: the JSON value model,
the error taxonomy (`src/errors.ts`), the configuration manager
(`src/config.ts`), and the HTTP client with retry
(`src/http-client.ts`).  Each definition mirrors the corresponding
source function; theorems below settle the specification claims.
-/

namespace TripAdvisor

/-- Model of a JavaScript runtime value as it occurs in request payloads
and JSON response bodies.  `undefined` models `undefined`; object fields are
an association list in property-insertion order (keys distinct). -/
inductive JsVal where
  | undefined : JsVal
  | null : JsVal
  | bool : Bool → JsVal
  | num : Int → JsVal
  | str : String → JsVal
  | arr : List JsVal → JsVal
  | obj : List (String × JsVal) → JsVal
deriving Repr

/-- JavaScript truthiness of a value (`!!v`).  Empty string, zero,
`false`, `null` and `undefined` are falsy; every object and array is
truthy. -/
def truthy : JsVal → Bool
  | .undefined => false
  | .null => false
  | .bool b => b
  | .num n => n != 0
  | .str s => s != ""
  | .arr _ => true
  | .obj _ => true

/-- Property access `v?.k`: the field's value when `v` is an object with
property `k`, otherwise `undefined`. -/
def getField (v : JsVal) (k : String) : JsVal :=
  match v with
  | .obj fields =>
    match fields.lookup k with
    | some w => w
    | none => .undefined
  | _ => .undefined

/-- `typeof v === 'object'` (true for objects, arrays and `null`). -/
def isObjectType : JsVal → Bool
  | .obj _ => true
  | .arr _ => true
  | .null => true
  | _ => false

/-- `v === null`. -/
def isNull : JsVal → Bool
  | .null => true
  | _ => false

mutual

/-- JavaScript `String(v)` / `v.toString()` coercion. -/
def jsToString : JsVal → String
  | .undefined => "undefined"
  | .null => "null"
  | .bool b => if b then "true" else "false"
  | .num n => toString n
  | .str s => s
  | .arr xs => String.intercalate "," (jsToStringElems xs)
  | .obj _ => "[object Object]"

/-- Array elements under `Array.prototype.toString` (a `join(",")`,
in which `null` and `undefined` elements render as empty). -/
def jsToStringElems : List JsVal → List String
  | [] => []
  | x :: xs =>
    (match x with
     | .undefined => ""
     | .null => ""
     | v => jsToString v) :: jsToStringElems xs

end

/-! ## Error taxonomy (`src/errors.ts`) -/

/-- A thrown error as it travels through the retry loop: either a
transport-level `Error` (carrying its `name` and `message`), a
`TripAdvisorError` built by `fromApiResponse` (API error), or a
`ValidationError`.  `name`/`message` are what `isRetryableError`
inspects. -/
inductive PipeError where
  | transport : String → String → PipeError
  | api : JsVal → JsVal → JsVal → PipeError
  | validation : String → PipeError
deriving Repr

/-- The `name` property of the thrown error object. -/
def PipeError.name : PipeError → String
  | .transport n _ => n
  | .api _ _ _ => "TripAdvisorError"
  | .validation _ => "ValidationError"

/-- The `message` property of the thrown error object (for a
`TripAdvisorError` the message value is coerced to string by the
`Error` constructor). -/
def PipeError.message : PipeError → String
  | .transport _ m => m
  | .api m _ _ => jsToString m
  | .validation m => m

/-- `TripAdvisorError.isApiError` (`src/errors.ts:45-48`): the body is
an API error when `responseObj?.error` or `responseObj?.Message` is
truthy. -/
def isApiError (response : JsVal) : Bool :=
  truthy (getField response "error") || truthy (getField response "Message")

/-- `TripAdvisorError.fromApiResponse` (`src/errors.ts:20-40`): extract
message/code/type from the `error` sub-object when it is a non-null
object, else from the top-level `Message` field when truthy, else a
generic placeholder. -/
def fromApiResponse (response : JsVal) : PipeError :=
  let e := getField response "error"
  if truthy e && isObjectType e && !isNull e then
    .api
      (if truthy (getField e "message") then getField e "message"
       else .str "Unknown API error")
      (getField e "code") (getField e "type")
  else if truthy (getField response "Message") then
    .api (getField response "Message") (getField response "code")
      (getField response "type")
  else
    .api (.str "Unknown API error") .undefined .undefined

/-! ## Retryability (`src/http-client.ts:181-190`) -/

/-- Boolean prefix test on character lists. -/
def isPrefixB : List Char → List Char → Bool
  | [], _ => true
  | _ :: _, [] => false
  | a :: as, b :: bs => a == b && isPrefixB as bs

/-- Boolean substring test: does `hay` contain `needle`? -/
def hasSubList (needle : List Char) : List Char → Bool
  | [] => isPrefixB needle []
  | c :: rest => isPrefixB needle (c :: rest) || hasSubList needle rest

/-- `message.includes(needle)`. -/
def strIncludes (hay needle : String) : Bool :=
  hasSubList needle.toList hay.toList

/-- The test `/^5\d\x7b2\x7d/.test(m)`: the string starts with the
character `5` followed by two decimal digits. -/
def startsWith5xx (m : String) : Bool :=
  match m.toList with
  | '5' :: a :: b :: _ => a.isDigit && b.isDigit
  | _ => false

/-- `HttpClient.isRetryableError` (`src/http-client.ts:181-190`):
retryable when the error's name is `AbortError`, its message contains
`fetch`, `network` or `timeout`, or its message starts with three
digits `5dd`. -/
def isRetryableError (e : PipeError) : Bool :=
  e.name == "AbortError" ||
  strIncludes e.message "fetch" ||
  strIncludes e.message "network" ||
  strIncludes e.message "timeout" ||
  startsWith5xx e.message

/-! ## Shape validation

The repository validates payloads and response bodies with `zod`
schemas (`payloadSchema.parse` / `responseSchema.parse`), a library
dependency whose code is not part of this repository.  `Shape` models
the object schemas the client declares: a list of field names with a
required flag; `parse` fails exactly when a required field is missing
from the object (spec section 4.2: "missing required fields fail"). -/

/-- A declared object shape: field name together with whether the
field is required. -/
structure Shape where
  fields : List (String × Bool)
deriving Repr

/-- Does the object value carry property `k`? -/
def hasField (v : JsVal) (k : String) : Bool :=
  match v with
  | .obj fields => (fields.lookup k).isSome
  | _ => false

/-- Modelled from the spec: `schema.parse(value)` succeeds iff the
value is an object providing every field the shape marks required
(the `zod` validator itself is an external dependency). -/
def validateShape (s : Shape) (v : JsVal) : Bool :=
  match v with
  | .obj _ => s.fields.all fun f => !f.2 || hasField v f.1
  | _ => false

/-- Rendering of the `zod` error interpolated into the thrown
`ValidationError` message (names the missing required fields). -/
def shapeErrorText (s : Shape) (v : JsVal) : String :=
  String.intercalate ", "
    ((s.fields.filter fun f => f.2 && !hasField v f.1).map Prod.fst)

/-! ## Transport (`src/http-client.ts:154-176`) -/

/-- What the network does on one attempt: `fetch` either resolves with
a status, status text and JSON body, or rejects with an error carrying
a name and message (connection failure, or `AbortError` on timeout). -/
inductive NetResult where
  | ok : Nat → String → JsVal → NetResult
  | netFail : String → String → NetResult
deriving Repr

/-- `HttpClient.sendRequest` (`src/http-client.ts:154-176`): a rejected
fetch propagates its error; a resolved response with `!response.ok`
(status outside 200-299) throws the generic
`Error("HTTP status: statusText")`; otherwise the body is returned. -/
def sendRequest : NetResult → Except PipeError JsVal
  | .netFail n m => .error (.transport n m)
  | .ok status text body =>
    if 200 ≤ status ∧ status ≤ 299 then .ok body
    else .error (.transport "Error" ("HTTP " ++ toString status ++ ": " ++ text))

/-- One full attempt of the loop body of `sendWithRetry`
(`src/http-client.ts:116-129`): transport, then API-error
classification, then response-shape validation, short-circuiting on
the first failure. -/
def runAttempt (schema : Shape) (net : NetResult) : Except PipeError JsVal :=
  match sendRequest net with
  | .error e => .error e
  | .ok body =>
    if isApiError body then .error (fromApiResponse body)
    else if validateShape schema body then .ok body
    else .error (.validation ("Invalid response format: " ++ shapeErrorText schema body))

/-- The retry loop of `sendWithRetry` (`src/http-client.ts:112-148`).
`net` tells what the network does on each successive fetch;
`remaining` is `retries - attempt`, so `remaining = 0` is the source's
`attempt === retries` test.  Returns the outcome together with the
number of fetch invocations made. -/
def retryLoop (schema : Shape) (net : Nat → NetResult) :
    Nat → Nat → Except PipeError JsVal × Nat
  | attempt, 0 =>
    match runAttempt schema (net attempt) with
    | .ok v => (.ok v, attempt + 1)
    | .error e => (.error e, attempt + 1)
  | attempt, r + 1 =>
    match runAttempt schema (net attempt) with
    | .ok v => (.ok v, attempt + 1)
    | .error e =>
      if isRetryableError e then retryLoop schema net (attempt + 1) r
      else (.error e, attempt + 1)

/-- `HttpClient.sendWithRetry` (`src/http-client.ts:103-149`): run the
loop from attempt `0` with the full retry budget. -/
def sendWithRetry (schema : Shape) (net : Nat → NetResult) (retries : Nat) :
    Except PipeError JsVal × Nat :=
  retryLoop schema net 0 retries

/-! ## URL construction (`src/http-client.ts:72-87`)

`buildUrl` relies on `URLSearchParams`: appended pairs are serialised
in order, each component percent-encoded per
`application/x-www-form-urlencoded` (space becomes `+`; ASCII
alphanumerics and `*`, `-`, `.`, `_` stay; every other byte of the
UTF-8 encoding becomes `%HH`). -/

/-- Characters `URLSearchParams` leaves unescaped. -/
def formSafeChar (c : Char) : Bool :=
  c.isAlphanum || c == '*' || c == '-' || c == '.' || c == '_'

/-- The UTF-8 bytes of one character, as numbers below 256. -/
def utf8Bytes (c : Char) : List Nat :=
  if c.toNat < 128 then [c.toNat]
  else if c.toNat < 2048 then [192 + c.toNat / 64, 128 + c.toNat % 64]
  else if c.toNat < 65536 then
    [224 + c.toNat / 4096, 128 + c.toNat / 64 % 64, 128 + c.toNat % 64]
  else
    [240 + c.toNat / 262144, 128 + c.toNat / 4096 % 64,
     128 + c.toNat / 64 % 64, 128 + c.toNat % 64]

/-- Upper-case hexadecimal digit for `n < 16`. -/
def hexDigit (n : Nat) : Char :=
  if n < 10 then Char.ofNat (48 + n) else Char.ofNat (55 + n)

/-- `%HH` escape of one byte. -/
def percentByte (b : Nat) : List Char :=
  ['%', hexDigit (b / 16), hexDigit (b % 16)]

/-- Form-encoding of one character. -/
def formEncodeChar (c : Char) : List Char :=
  if c == ' ' then ['+']
  else if formSafeChar c then [c]
  else List.flatten ((utf8Bytes c).map percentByte)

/-- Form-encoding of a character list. -/
def formEncodeL (l : List Char) : List Char :=
  List.flatten (l.map formEncodeChar)

/-- Form-encoding of a string component. -/
def formEncode (s : String) : String :=
  ⟨formEncodeL s.toList⟩

/-- One serialised pair `key=value`, both components form-encoded. -/
def pairChars (p : String × String) : List Char :=
  formEncodeL p.1.toList ++ '=' :: formEncodeL p.2.toList

/-- Serialised pairs joined by `&`. -/
def queryChars : List (String × String) → List Char
  | [] => []
  | [p] => pairChars p
  | p :: q :: rest => pairChars p ++ '&' :: queryChars (q :: rest)

/-- `URLSearchParams.toString()`: pairs joined by `&`, each rendered
`key=value` with both components form-encoded. -/
def renderQuery (pairs : List (String × String)) : String :=
  ⟨queryChars pairs⟩

/-- The `Object.entries(payload).forEach` loop of `buildUrl`
(`src/http-client.ts:80-84`): append `(key, value.toString())` to the
accumulated search params for every entry whose value is neither
`undefined` nor `null`. -/
def appendParams : List (String × JsVal) → List (String × String) →
    List (String × String)
  | [], params => params
  | (k, v) :: rest, params =>
    match v with
    | .undefined => appendParams rest params
    | .null => appendParams rest params
    | v => appendParams rest (params ++ [(k, jsToString v)])

/-- Split a character list on every occurrence of `sep` (the query
decoder used to check what `renderQuery` produced).  Always returns at
least one group. -/
def splitOnChar (sep : Char) : List Char → List (List Char)
  | [] => [[]]
  | c :: rest =>
    if c == sep then [] :: splitOnChar sep rest
    else (c :: (splitOnChar sep rest).headI) :: (splitOnChar sep rest).tail

/-- Split a serialised pair at its first `=`. -/
def splitEq : List Char → List Char × List Char
  | [] => ([], [])
  | c :: rest =>
    if c == '=' then ([], rest)
    else ((c :: (splitEq rest).1), (splitEq rest).2)

/-- Decode a query string back into its raw (still form-encoded)
`key=value` pairs, in order. -/
def queryPairs (q : String) : List (String × String) :=
  (splitOnChar '&' q.toList).map fun comp =>
    (⟨(splitEq comp).1⟩, ⟨(splitEq comp).2⟩)

/-- From the claim's words: exactly those parameters whose value is
neither `undefined` nor `null`, each rendered by its string
representation, in the order the fields appear in the validated
object. -/
def definedPairs (payload : List (String × JsVal)) : List (String × String) :=
  payload.filterMap fun p =>
    match p.2 with
    | .undefined => none
    | .null => none
    | v => some (p.1, jsToString v)

/-- `HttpClient.buildUrl` (`src/http-client.ts:72-87`): the API key is
appended under `key` first, then the defined payload entries, and the
result is `baseUrl ++ endpoint ++ "?" ++ params.toString()`. -/
def buildUrl (baseUrl apiKey endpoint : String)
    (payload : List (String × JsVal)) : String :=
  baseUrl ++ endpoint ++ "?" ++ renderQuery (appendParams payload [("key", apiKey)])

/-! ## Configuration (`src/config.ts`) -/

/-- A fully merged `TripAdvisorConfig`. -/
structure TripAdvisorConfig where
  apiKey : String
  baseUrl : String
  language : String
  currency : String
  timeout : Nat
  retries : Nat
  retryDelay : Nat
deriving Repr, DecidableEq

/-- A `Partial<TripAdvisorConfig>`: `none` models an absent property. -/
structure PartialConfig where
  apiKey : Option String := none
  baseUrl : Option String := none
  language : Option String := none
  currency : Option String := none
  timeout : Option Nat := none
  retries : Option Nat := none
  retryDelay : Option Nat := none
deriving Repr, DecidableEq

/-- `ConfigurationError` (`src/errors.ts:54-59`). -/
inductive ConfigError where
  | configurationError : String → ConfigError
deriving Repr, DecidableEq

/-- The message of the missing-API-key `ConfigurationError`
(`src/config.ts:52-54`). -/
def apiKeyRequiredMsg : String :=
  "TripAdvisor API key is required. Set TRIPADVISOR_API_KEY environment variable or pass apiKey in config."

/-- JavaScript `a || b` on possibly-absent strings (an absent or empty
`a` falls through to `b`). -/
def jsOrString (a b : Option String) : Option String :=
  match a with
  | some s => if s == "" then b else some s
  | none => b

/-- `config?.apiKey || process.env.TRIPADVISOR_API_KEY` followed by the
`if (!apiKey)` falsiness test: the resolved key when truthy, `none`
when the whole expression is falsy.  `env` is the environment
variable (`none` when unset). -/
def resolveApiKey (env cfgKey : Option String) : Option String :=
  match jsOrString cfgKey env with
  | some s => if s == "" then none else some s
  | none => none

/-- `ConfigManager.validateAndMergeConfig` (`src/config.ts:48-62`):
resolve the credential (explicit value first, environment fallback),
fail with `ConfigurationError` when it is falsy, otherwise merge
`DEFAULT_CONFIG`, the given partial and the resolved key. -/
def validateAndMergeConfig (env : Option String) (config : PartialConfig) :
    Except ConfigError TripAdvisorConfig :=
  match resolveApiKey env config.apiKey with
  | none => .error (.configurationError apiKeyRequiredMsg)
  | some key =>
    .ok { apiKey := key,
          baseUrl := config.baseUrl.getD "https://api.content.tripadvisor.com/api/v1",
          language := config.language.getD "en",
          currency := config.currency.getD "USD",
          timeout := config.timeout.getD 30000,
          retries := config.retries.getD 3,
          retryDelay := config.retryDelay.getD 1000 }

/-- The spread `{...this.config}` of a full configuration into a
partial one (every property present). -/
def toPartial (c : TripAdvisorConfig) : PartialConfig :=
  { apiKey := some c.apiKey, baseUrl := some c.baseUrl,
    language := some c.language, currency := some c.currency,
    timeout := some c.timeout, retries := some c.retries,
    retryDelay := some c.retryDelay }

/-- The spread `{...base, ...upd}`: properties of `upd` override. -/
def mergePartial (base upd : PartialConfig) : PartialConfig :=
  { apiKey := upd.apiKey <|> base.apiKey,
    baseUrl := upd.baseUrl <|> base.baseUrl,
    language := upd.language <|> base.language,
    currency := upd.currency <|> base.currency,
    timeout := upd.timeout <|> base.timeout,
    retries := upd.retries <|> base.retries,
    retryDelay := upd.retryDelay <|> base.retryDelay }

/-- `ConfigManager.updateConfig` (`src/config.ts:74-76`): re-validate
the merge of the stored configuration with the updates; on success the
result replaces the stored configuration, on failure the exception
propagates and the stored configuration is left untouched.  Returns
the stored configuration afterwards and the raised error, if any. -/
def updateConfig (env : Option String) (st : TripAdvisorConfig)
    (updates : PartialConfig) : TripAdvisorConfig × Option ConfigError :=
  match validateAndMergeConfig env (mergePartial (toPartial st) updates) with
  | .ok c => (c, none)
  | .error e => (st, some e)

/-! ## Object identity for `getConfig` (`src/config.ts:67-69`)

`getConfig` returns `{ ...this.config }`.  To state that this is an
independent copy rather than the live object, configurations live in
an explicit heap of objects addressed by references; the manager holds
one reference and `getConfig` allocates a fresh object holding a copy
of the stored value (all configuration fields are primitives, so the
shallow spread copies the whole value). -/

/-- A heap of configuration objects together with the reference the
`ConfigManager` instance holds in its private `config` field. -/
structure ManagerHeap where
  heap : List TripAdvisorConfig
  managerRef : Nat
deriving Repr

/-- Dereference: the object stored at `r` (a dummy value outside the
heap; references in use are always in range). -/
def readRef (s : ManagerHeap) (r : Nat) : TripAdvisorConfig :=
  s.heap.getD r ⟨"", "", "", "", 0, 0, 0⟩

/-- The configuration the manager currently stores. -/
def readManagerConfig (s : ManagerHeap) : TripAdvisorConfig :=
  readRef s s.managerRef

/-- `ConfigManager.getConfig` (`src/config.ts:67-69`): allocate a fresh
object initialised with `{ ...this.config }` and hand its reference to
the caller. -/
def getConfigAlloc (s : ManagerHeap) : Nat × ManagerHeap :=
  (s.heap.length, ⟨s.heap ++ [readManagerConfig s], s.managerRef⟩)

/-- A caller mutating the object behind reference `r` in place. -/
def writeRef (s : ManagerHeap) (r : Nat) (c : TripAdvisorConfig) : ManagerHeap :=
  ⟨s.heap.set r c, s.managerRef⟩

/-! ## `HttpClient.request` (`src/http-client.ts:38-67`) -/

/-- `HttpClient.request`: validate the payload (throwing a
`ValidationError` before anything else happens), then build the URL
and run `sendWithRetry`.  Returns the outcome, the number of fetch
invocations, and the URL handed to the transport (`none` when
`buildUrl` was never reached). -/
def request (pShape rShape : Shape) (cfg : TripAdvisorConfig)
    (endpoint : String) (payload : List (String × JsVal))
    (net : Nat → NetResult) :
    Except PipeError JsVal × Nat × Option String :=
  if validateShape pShape (.obj payload) then
    let url := buildUrl cfg.baseUrl cfg.apiKey endpoint payload
    let r := sendWithRetry rShape net cfg.retries
    (r.1, r.2, some url)
  else
    (.error (.validation
      ("Invalid request payload: " ++ shapeErrorText pShape (.obj payload))), 0, none)

/-! ## Specification-side definitions, for comparison with the code -/

/-- From the spec's words: a body "matches one of the two API-error
envelopes" when it carries an `error` sub-object (a non-null value of
object type) or a top-level `Message` field. -/
def matchesErrorEnvelope (body : JsVal) : Bool :=
  (isObjectType (getField body "error") && !isNull (getField body "error")) ||
  hasField body "Message"

/-- From the (amended) spec's words: the API-error descriptor read off
the envelope — when the `error` field is a non-null value of object
type, its `message` (the generic placeholder when that is absent or
falsy), `code` and `type`; otherwise, when the top-level `Message` is
truthy, that message with the top-level `code` and `type`; otherwise
the generic placeholder alone. -/
def specEnvelope (body : JsVal) : PipeError :=
  match getField body "error" with
  | .obj fs =>
    .api
      (match fs.lookup "message" with
       | some m => if truthy m then m else .str "Unknown API error"
       | none => .str "Unknown API error")
      (match fs.lookup "code" with | some c => c | none => .undefined)
      (match fs.lookup "type" with | some t => t | none => .undefined)
  | .arr _ => .api (.str "Unknown API error") .undefined .undefined
  | _ =>
    if truthy (getField body "Message") then
      .api (getField body "Message") (getField body "code") (getField body "type")
    else .api (.str "Unknown API error") .undefined .undefined

/-- From the spec's words (section 7): the error taxonomy consists of
the classes `ConfigurationError`, `ValidationError` and
`TripAdvisorError` (API errors); an error surfaced to the caller is a
typed kind exactly when its class (`name`) is one of these — the
repository declares no `TransportError` class. -/
def isTypedErrorKind (e : PipeError) : Bool :=
  e.name == "TripAdvisorError" || e.name == "ValidationError" ||
  e.name == "ConfigurationError"

/-! ## Theorems -/

/-- C1: evaluation at the failing input.  A single attempt that fails
with HTTP status 500 produces the error message
`HTTP 500: Internal Server Error`; `isRetryableError` classifies it as
NOT retryable — the `5dd` digit pattern is anchored at the start of
the message, but the message starts with `HTTP ` — so even with a
retry budget of 3 the transport is invoked exactly once.  The claim
(and the code's own comment, `5xx server errors can be retried`) says
a 5xx failure with budget remaining leads to another attempt. -/
theorem http500_not_retryable :
    sendRequest (.ok 500 "Internal Server Error" .null)
      = .error (.transport "Error" "HTTP 500: Internal Server Error") ∧
    isRetryableError (.transport "Error" "HTTP 500: Internal Server Error") = false ∧
    sendWithRetry ⟨[]⟩ (fun _ => .ok 500 "Internal Server Error" .null) 3
      = (.error (.transport "Error" "HTTP 500: Internal Server Error"), 1) :=
  ⟨rfl, rfl, rfl⟩

/-- Helper for the retry loop: when every attempt fails and every
failure is classified retryable, the loop consumes the whole remaining
budget and ends with the error of the last attempt made. -/
theorem retryLoop_all_retryable (schema : Shape) (net : Nat → NetResult)
    (err : Nat → PipeError)
    (h1 : ∀ n, runAttempt schema (net n) = .error (err n))
    (h2 : ∀ n, isRetryableError (err n) = true) :
    ∀ remaining attempt, retryLoop schema net attempt remaining =
      (.error (err (attempt + remaining)), attempt + remaining + 1) := by
  intro remaining
  induction remaining with
  | zero =>
    intro attempt
    simp [retryLoop, h1 attempt]
  | succ r ih =>
    intro attempt
    have ha : attempt + 1 + r = attempt + (r + 1) := by omega
    simp [retryLoop, h1 attempt, h2 attempt, ih (attempt + 1), ha]

/-- C2: for every retry budget `retries = N`, if every attempt fails
with an error the retryability classifier accepts, the transport is
invoked exactly `N + 1` times and the surfaced error is the error of
the last attempt (index `N`), not an aggregate. -/
theorem sendWithRetry_exhausts_budget (schema : Shape) (net : Nat → NetResult)
    (err : Nat → PipeError) (retries : Nat)
    (h1 : ∀ n, runAttempt schema (net n) = .error (err n))
    (h2 : ∀ n, isRetryableError (err n) = true) :
    sendWithRetry schema net retries = (.error (err retries), retries + 1) := by
  have h := retryLoop_all_retryable schema net err h1 h2 retries 0
  simpa [sendWithRetry] using h

/-- Witness for C2: three timeouts in a row under a budget of 2
retries give exactly 3 transport invocations and surface the third
`AbortError`. -/
theorem sendWithRetry_exhausts_budget_witness :
    sendWithRetry ⟨[]⟩ (fun _ => .netFail "AbortError" "This operation was aborted") 2
      = (.error (.transport "AbortError" "This operation was aborted"), 3) :=
  sendWithRetry_exhausts_budget ⟨[]⟩
    (fun _ => .netFail "AbortError" "This operation was aborted")
    (fun _ => .transport "AbortError" "This operation was aborted") 2
    (fun _ => rfl) (fun _ => rfl)

/-- C3: evaluation at the failing input.  The transport succeeds with
body `obj [(Message, str network unreachable)]`; the body is
classified as an API error (a non-retryable kind per the claim), yet
with one retry remaining the transport is invoked a second time: the
retryability test pattern-matches the thrown error's message text,
which contains `network`.  The claim says the executor terminates
immediately after a classified API error and never makes a further
transport attempt. -/
theorem apiError_retried_despite_claim :
    isApiError (.obj [("Message", .str "network unreachable")]) = true ∧
    isRetryableError
      (fromApiResponse (.obj [("Message", .str "network unreachable")])) = true ∧
    sendWithRetry ⟨[]⟩
      (fun _ => .ok 200 "OK" (.obj [("Message", .str "network unreachable")])) 1
      = (.error (.api (.str "network unreachable") .undefined .undefined), 2) :=
  ⟨rfl, rfl, rfl⟩

/-- Helper: the source's `fromApiResponse` agrees with the
specification-side envelope extraction on every body. -/
theorem fromApiResponse_eq_specEnvelope (body : JsVal) :
    fromApiResponse body = specEnvelope body := by
  unfold fromApiResponse specEnvelope
  cases h : getField body "error" with
  | obj fs =>
    simp only [truthy, isObjectType, isNull, Bool.not_false, Bool.and_self,
      Bool.true_and, Bool.and_true, if_true, getField]
    cases fs.lookup "message" <;> cases fs.lookup "code" <;>
      cases fs.lookup "type" <;> simp [truthy]
  | arr xs =>
    simp [truthy, isObjectType, isNull, getField]
  | undefined => simp [truthy, isObjectType, isNull]
  | null => simp [truthy, isObjectType, isNull]
  | bool b => simp [truthy, isObjectType, isNull]
  | num n => simp [truthy, isObjectType, isNull]
  | str s => simp [truthy, isObjectType, isNull]

/-- C4 counterexample: `obj [(Message, str empty)]` matches the
claim's envelope — it is an object with a top-level `Message` field —
yet, with `Message` falsy, it is not classified as an API error: the
response-shape validator IS applied to it and the call fails with a
ValidationError rather than an ApiError. -/
theorem emptyMessage_reaches_validator :
    matchesErrorEnvelope (.obj [("Message", .str "")]) = true ∧
    isApiError (.obj [("Message", .str "")]) = false ∧
    runAttempt ⟨[("data", true)]⟩ (.ok 200 "OK" (.obj [("Message", .str "")]))
      = .error (.validation "Invalid response format: data") :=
  ⟨rfl, rfl, rfl⟩

/-- C4 (amended): for every successfully transported body whose
`error` field or `Message` field is truthy, and every expected
response shape, the attempt fails with exactly the ApiError described
by the envelope extraction (`specEnvelope`), independent of the
shape — so the response-shape validator never influences the
outcome. -/
theorem apiError_classified_before_validation (body : JsVal) (st : Nat)
    (txt : String) (h : isApiError body = true)
    (h1 : 200 ≤ st) (h2 : st ≤ 299) :
    ∀ s : Shape, runAttempt s (.ok st txt body) = .error (specEnvelope body) := by
  have hok : sendRequest (.ok st txt body) = .ok body := by
    simp [sendRequest, h1, h2]
  intro s
  simp [runAttempt, hok, h, fromApiResponse_eq_specEnvelope]

/-- Witness for C4 (spec scenario C): the body
`obj [(Message, str Not found), (code, num 404)]` yields the ApiError
with message `Not found` and code `404`, not a ValidationError. -/
theorem apiError_classified_before_validation_witness :
    runAttempt ⟨[("data", true)]⟩
      (.ok 200 "OK" (.obj [("Message", .str "Not found"), ("code", .num 404)]))
      = .error (.api (.str "Not found") (.num 404) .undefined) :=
  apiError_classified_before_validation
    (.obj [("Message", .str "Not found"), ("code", .num 404)]) 200 "OK"
    rfl (by omega) (by omega) ⟨[("data", true)]⟩

/-- C10: API-error classification tests truthiness, not presence: a
body whose `error` field is absent or falsy and whose `Message` field
is falsy is not classified as an API error, and the attempt passes it
on to response-shape validation. -/
theorem falsy_envelope_not_classified (body : JsVal)
    (he : truthy (getField body "error") = false)
    (hm : truthy (getField body "Message") = false) :
    isApiError body = false ∧
    ∀ (s : Shape) (st : Nat) (txt : String), 200 ≤ st → st ≤ 299 →
      runAttempt s (.ok st txt body) =
        (if validateShape s body then .ok body
         else .error (.validation
           ("Invalid response format: " ++ shapeErrorText s body))) := by
  have hapi : isApiError body = false := by simp [isApiError, he, hm]
  refine ⟨hapi, ?_⟩
  intro s st txt h1 h2
  have hok : sendRequest (.ok st txt body) = .ok body := by
    simp [sendRequest, h1, h2]
  simp [runAttempt, hok, hapi]

/-- Witness for C10: `obj [(Message, str empty)]` structurally matches
the error envelope but is treated as a candidate payload and handed to
the validator (which rejects it against a shape requiring `data`). -/
theorem falsy_envelope_not_classified_witness :
    isApiError (.obj [("Message", .str "")]) = false ∧
    runAttempt ⟨[("data", true)]⟩ (.ok 200 "OK" (.obj [("Message", .str "")]))
      = .error (.validation "Invalid response format: data") := by
  have h := falsy_envelope_not_classified (.obj [("Message", .str "")]) rfl rfl
  exact ⟨h.1, (h.2 ⟨[("data", true)]⟩ 200 "OK" (by omega) (by omega)).trans rfl⟩

/-- C8 counterexample: a call that fails through a 404 response
surfaces the generic `Error` object thrown by `sendRequest` (class
name `Error`, message `HTTP 404: Not Found`) — not one of the four
typed error kinds; the repository declares no TransportError class. -/
theorem generic_error_surfaced :
    sendWithRetry ⟨[]⟩ (fun _ => .ok 404 "Not Found" .null) 0
      = (.error (.transport "Error" "HTTP 404: Not Found"), 1) ∧
    isTypedErrorKind (.transport "Error" "HTTP 404: Not Found") = false :=
  ⟨rfl, rfl⟩

/-- Helper: a failing run of the retry loop surfaces the error of one
single attempt, namely the last attempt made. -/
theorem retryLoop_error_from_attempt (schema : Shape) (net : Nat → NetResult) :
    ∀ remaining attempt e,
      (retryLoop schema net attempt remaining).1 = .error e →
      ∃ n, attempt ≤ n ∧ n ≤ attempt + remaining ∧
        runAttempt schema (net n) = .error e ∧
        (retryLoop schema net attempt remaining).2 = n + 1 := by
  intro remaining
  induction remaining with
  | zero =>
    intro attempt e h
    cases hA : runAttempt schema (net attempt) with
    | ok v => simp [retryLoop, hA] at h
    | error e0 =>
      simp only [retryLoop, hA] at h ⊢
      exact ⟨attempt, le_refl _, by omega, by rw [hA, h], rfl⟩
  | succ r ih =>
    intro attempt e h
    cases hA : runAttempt schema (net attempt) with
    | ok v => simp [retryLoop, hA] at h
    | error e0 =>
      by_cases hR : isRetryableError e0 = true
      · have hrec : retryLoop schema net attempt (r + 1) =
            retryLoop schema net (attempt + 1) r := by
          simp only [retryLoop, hA]
          rw [if_pos hR]
        rw [hrec] at h
        obtain ⟨n, hn1, hn2, hn3, hn4⟩ := ih (attempt + 1) e h
        exact ⟨n, by omega, by omega, hn3, by rw [hrec]; exact hn4⟩
      · have hstop : retryLoop schema net attempt (r + 1) = (.error e0, attempt + 1) := by
          simp only [retryLoop, hA]
          rw [if_neg hR]
        rw [hstop] at h
        simp only at h
        exact ⟨attempt, le_refl _, by omega, by rw [hA, h], by rw [hstop]⟩

/-- C8 (amended): every failing call surfaces the error raised by one
single attempt — the last attempt made (the transport-invocation count
is exactly that attempt's index plus one), never an aggregate;
validation failures and API errors surface as their declared classes,
while transport failures surface as the generic `Error` of the last
attempt, carrying its underlying cause. -/
theorem surfaced_error_is_last_attempt (schema : Shape) (net : Nat → NetResult)
    (retries : Nat) (e : PipeError)
    (h : (sendWithRetry schema net retries).1 = .error e) :
    ∃ n, n ≤ retries ∧ runAttempt schema (net n) = .error e ∧
      (sendWithRetry schema net retries).2 = n + 1 := by
  obtain ⟨n, _, hb, hr, hc⟩ := retryLoop_error_from_attempt schema net retries 0 e h
  exact ⟨n, by omega, hr, hc⟩

/-- Witness for C8 (amended): the 404 run makes one attempt and
surfaces that attempt's generic HTTP error. -/
theorem surfaced_error_is_last_attempt_witness :
    ∃ n, n ≤ 0 ∧
      runAttempt ⟨[]⟩ ((fun _ => NetResult.ok 404 "Not Found" .null) n)
        = .error (.transport "Error" "HTTP 404: Not Found") ∧
      (sendWithRetry ⟨[]⟩ (fun _ => .ok 404 "Not Found" .null) 0).2 = n + 1 :=
  surfaced_error_is_last_attempt ⟨[]⟩ (fun _ => .ok 404 "Not Found" .null) 0
    (.transport "Error" "HTTP 404: Not Found") rfl

/-- C6: for every parameter shape and every payload missing a field
the shape marks required, `request` fails with a ValidationError
carrying the outbound message, makes zero transport invocations, and
never builds a URL. -/
theorem missing_required_field_rejected (pShape rShape : Shape)
    (cfg : TripAdvisorConfig) (endpoint : String)
    (payload : List (String × JsVal)) (net : Nat → NetResult) (fname : String)
    (hreq : (fname, true) ∈ pShape.fields)
    (habs : hasField (.obj payload) fname = false) :
    request pShape rShape cfg endpoint payload net
      = (.error (.validation
          ("Invalid request payload: " ++ shapeErrorText pShape (.obj payload))),
         0, none) := by
  have hv : validateShape pShape (.obj payload) = false := by
    simp only [validateShape]
    rw [List.all_eq_false]
    exact ⟨(fname, true), hreq, by simp [habs]⟩
  simp [request, hv]

/-- Witness for C6: a shape requiring `searchQuery` rejects the empty
payload with zero fetches and no URL. -/
theorem missing_required_field_rejected_witness :
    request ⟨[("searchQuery", true)]⟩ ⟨[]⟩
      ⟨"k", "https://api.example/v1", "en", "USD", 30000, 3, 1000⟩
      "/location/search" [] (fun _ => .netFail "TypeError" "fetch failed")
      = (.error (.validation "Invalid request payload: searchQuery"), 0, none) :=
  (missing_required_field_rejected ⟨[("searchQuery", true)]⟩ ⟨[]⟩
    ⟨"k", "https://api.example/v1", "en", "USD", 30000, 3, 1000⟩
    "/location/search" [] (fun _ => .netFail "TypeError" "fetch failed")
    "searchQuery" (by simp) rfl).trans rfl

/-- Helper: a key the resolution step accepts is never empty. -/
theorem resolveApiKey_ne_empty (env k : Option String) (s : String)
    (h : resolveApiKey env k = some s) : s ≠ "" := by
  unfold resolveApiKey at h
  cases hj : jsOrString k env with
  | none => rw [hj] at h; exact absurd h (by simp)
  | some t =>
    rw [hj] at h
    dsimp only at h
    by_cases ht : t == ""
    · rw [if_pos ht] at h; exact absurd h (by simp)
    · rw [if_neg ht] at h
      cases h
      simpa using ht

/-- C7: after every successful construction or update the stored
credential is non-empty, and update is atomic: a valid merge replaces
the configuration and an invalid merge raises ConfigurationError and
retains the prior configuration; in particular (environment variable
unset) an update with an empty apiKey fails and a read still returns
the old credential. -/
theorem config_update_atomic (env : Option String) (st : TripAdvisorConfig)
    (upd : PartialConfig) :
    (∀ cfg c, validateAndMergeConfig env cfg = .ok c → c.apiKey ≠ "") ∧
    (∀ c, validateAndMergeConfig env (mergePartial (toPartial st) upd) = .ok c →
      updateConfig env st upd = (c, none)) ∧
    (∀ e, validateAndMergeConfig env (mergePartial (toPartial st) upd) = .error e →
      updateConfig env st upd = (st, some e)) ∧
    (env = none →
      updateConfig env st { apiKey := some "" }
        = (st, some (.configurationError apiKeyRequiredMsg))) := by
  refine ⟨?_, ?_, ?_, ?_⟩
  · intro cfg c h
    unfold validateAndMergeConfig at h
    cases hk : resolveApiKey env cfg.apiKey with
    | none => rw [hk] at h; exact absurd h (by simp)
    | some key =>
      rw [hk] at h
      cases h
      exact resolveApiKey_ne_empty env cfg.apiKey key hk
  · intro c h
    unfold updateConfig
    rw [h]
  · intro e h
    unfold updateConfig
    rw [h]
  · intro he
    subst he
    unfold updateConfig
    simp [validateAndMergeConfig, mergePartial, toPartial, resolveApiKey, jsOrString]

/-- Witness for C7: updating a configuration whose credential is
`old-key` with an empty apiKey (environment unset) raises the
ConfigurationError and the stored configuration — and so its
credential — is unchanged. -/
theorem config_update_atomic_witness :
    updateConfig none ⟨"old-key", "https://api.example/v1", "en", "USD", 30000, 3, 1000⟩
      { apiKey := some "" }
      = (⟨"old-key", "https://api.example/v1", "en", "USD", 30000, 3, 1000⟩,
         some (.configurationError apiKeyRequiredMsg)) :=
  (config_update_atomic none
    ⟨"old-key", "https://api.example/v1", "en", "USD", 30000, 3, 1000⟩
    { apiKey := some "" }).2.2.2 rfl

/-- C9: `getConfig` hands the caller a freshly allocated object (a
reference distinct from the manager's own) whose value equals the
stored configuration; mutating the returned object leaves the stored
configuration — and hence every subsequent read — unchanged. -/
theorem getConfig_returns_copy (s : ManagerHeap)
    (h : s.managerRef < s.heap.length) (c : TripAdvisorConfig) :
    (getConfigAlloc s).1 ≠ s.managerRef ∧
    readRef (getConfigAlloc s).2 (getConfigAlloc s).1 = readManagerConfig s ∧
    readManagerConfig (writeRef (getConfigAlloc s).2 (getConfigAlloc s).1 c)
      = readManagerConfig s := by
  refine ⟨by simp [getConfigAlloc]; omega, ?_, ?_⟩
  · simp [getConfigAlloc, readRef, readManagerConfig]
  · simp only [getConfigAlloc, readRef, readManagerConfig, writeRef]
    have hne : s.managerRef ≠ s.heap.length := by omega
    rw [List.getD_eq_getElem?_getD, List.getElem?_set_ne (by omega),
      List.getElem?_append_left h, List.getD_eq_getElem?_getD]

/-- Helper: the accumulated search params are the initial ones
followed by exactly the defined payload entries, in order. -/
theorem appendParams_eq (payload : List (String × JsVal)) :
    ∀ init, appendParams payload init = init ++ definedPairs payload := by
  induction payload with
  | nil => intro init; simp [appendParams, definedPairs]
  | cons p rest ih =>
    intro init
    obtain ⟨k, v⟩ := p
    cases v <;>
      simp [appendParams, definedPairs, List.filterMap_cons, ih]

/-- Helper: every byte of a character's UTF-8 encoding is below 256. -/
theorem utf8Bytes_lt_256 (c : Char) : ∀ b ∈ utf8Bytes c, b < 256 := by
  intro b hb
  have hc : c.toNat < 1114112 := by
    have hv := c.valid
    rcases hv with h1 | ⟨_, h2⟩
    · exact Nat.lt_trans h1 (by omega)
    · exact h2
  unfold utf8Bytes at hb
  split_ifs at hb with h1 h2 h3 <;> simp at hb <;> omega

/-- Helper: form-encoded output never contains `&` or `=`. -/
theorem formEncodeChar_safe (c c' : Char) (h : c' ∈ formEncodeChar c) :
    c' ≠ '&' ∧ c' ≠ '=' := by
  unfold formEncodeChar at h
  split_ifs at h with hsp hsafe
  · simp at h
    subst h
    exact ⟨by decide, by decide⟩
  · simp at h
    subst h
    constructor
    · intro hq; rw [hq] at hsafe; exact absurd hsafe (by decide)
    · intro hq; rw [hq] at hsafe; exact absurd hsafe (by decide)
  · rw [List.mem_flatten] at h
    obtain ⟨bl, hbl, hcbl⟩ := h
    rw [List.mem_map] at hbl
    obtain ⟨b, hb, hblb⟩ := hbl
    have hb256 := utf8Bytes_lt_256 c b hb
    subst hblb
    unfold percentByte at hcbl
    have h16a : b / 16 < 16 := by omega
    have h16b : b % 16 < 16 := by omega
    simp at hcbl
    rcases hcbl with h | h | h
    · subst h; exact ⟨by decide, by decide⟩
    · subst h
      constructor <;> (intro hq; revert hq; unfold hexDigit; split_ifs <;>
        (intro hq; interval_cases hd : b / 16 <;> revert hq <;> decide))
    · subst h
      constructor <;> (intro hq; revert hq; unfold hexDigit; split_ifs <;>
        (intro hq; interval_cases hd : b % 16 <;> revert hq <;> decide))

/-- Helper: `&` never occurs in a form-encoded component. -/
theorem formEncodeL_no_amp (l : List Char) : '&' ∉ formEncodeL l := by
  intro h
  unfold formEncodeL at h
  rw [List.mem_flatten] at h
  obtain ⟨bl, hbl, hc⟩ := h
  rw [List.mem_map] at hbl
  obtain ⟨c, _, hblc⟩ := hbl
  subst hblc
  exact (formEncodeChar_safe c '&' hc).1 rfl

/-- Helper: `=` never occurs in a form-encoded component. -/
theorem formEncodeL_no_eq (l : List Char) : '=' ∉ formEncodeL l := by
  intro h
  unfold formEncodeL at h
  rw [List.mem_flatten] at h
  obtain ⟨bl, hbl, hc⟩ := h
  rw [List.mem_map] at hbl
  obtain ⟨c, _, hblc⟩ := hbl
  subst hblc
  exact (formEncodeChar_safe c '=' hc).2 rfl

/-- Helper: a serialised `key=value` pair contains no `&`. -/
theorem pairChars_no_amp (p : String × String) : '&' ∉ pairChars p := by
  intro h
  unfold pairChars at h
  rw [List.mem_append] at h
  rcases h with h | h
  · exact formEncodeL_no_amp _ h
  · rw [List.mem_cons] at h
    rcases h with h | h
    · exact absurd h (by decide)
    · exact formEncodeL_no_amp _ h

/-- Helper: a separator-free list is a single group. -/
theorem splitOnChar_no_sep (sep : Char) (l : List Char) (h : sep ∉ l) :
    splitOnChar sep l = [l] := by
  induction l with
  | nil => rfl
  | cons c rest ih =>
    rw [List.mem_cons] at h
    push_neg at h
    simp only [splitOnChar, ih h.2]
    rw [if_neg (by simpa using fun hq => h.1 hq.symm)]
    simp

/-- Helper: splitting a list with one marked separator occurrence. -/
theorem splitOnChar_append (sep : Char) (a b : List Char) (h : sep ∉ a) :
    splitOnChar sep (a ++ sep :: b) = a :: splitOnChar sep b := by
  induction a with
  | nil =>
    simp only [List.nil_append, splitOnChar]
    rw [if_pos (by simp)]
  | cons c a ih =>
    rw [List.mem_cons] at h
    push_neg at h
    simp only [List.cons_append, splitOnChar, List.append_eq]
    rw [if_neg (by simpa using fun hq => h.1 hq.symm), ih h.2]
    simp

/-- Helper: splitting a pair at its (first) `=`. -/
theorem splitEq_append (a b : List Char) (h : '=' ∉ a) :
    splitEq (a ++ '=' :: b) = (a, b) := by
  induction a with
  | nil => simp [splitEq]
  | cons c a ih =>
    rw [List.mem_cons] at h
    push_neg at h
    simp only [List.cons_append, splitEq, List.append_eq]
    rw [if_neg (by simpa using fun hq => h.1 hq.symm), ih h.2]

/-- Helper: a serialised pair splits back into its two encoded
components. -/
theorem splitEq_pairChars (p : String × String) :
    splitEq (pairChars p) =
      (formEncodeL p.1.toList, formEncodeL p.2.toList) :=
  splitEq_append _ _ (formEncodeL_no_eq _)

/-- Helper: the serialised query splits back into its pairs. -/
theorem splitOnChar_queryChars (p : String × String)
    (rest : List (String × String)) :
    splitOnChar '&' (queryChars (p :: rest)) = (p :: rest).map pairChars := by
  induction rest generalizing p with
  | nil =>
    simp only [queryChars, List.map_cons, List.map_nil]
    exact splitOnChar_no_sep '&' _ (pairChars_no_amp p)
  | cons q rest2 ih =>
    simp only [queryChars, List.map_cons]
    rw [splitOnChar_append '&' _ _ (pairChars_no_amp p), ih q]
    simp

/-- Helper: decoding what `renderQuery` produced recovers every pair,
in order, as its form-encoded components. -/
theorem queryPairs_renderQuery (p : String × String)
    (rest : List (String × String)) :
    queryPairs (renderQuery (p :: rest)) =
      ((p :: rest).map fun q => (formEncode q.1, formEncode q.2)) := by
  unfold queryPairs renderQuery
  have htl : (String.mk (queryChars (p :: rest))).toList = queryChars (p :: rest) := rfl
  rw [htl, splitOnChar_queryChars, List.map_map]
  refine List.map_congr_left ?_
  intro q _
  simp [Function.comp, splitEq_pairChars, formEncode]

/-- C5: the encoded URL is `base ++ path ++ ?` followed by a query
string that decodes to the credential under the reserved key `key`
first, then exactly those parameters whose value is neither
`undefined` nor `null`, each rendered by its string representation
(then form-encoded), in the order the fields appear in the validated
object; `undefined`/`null` parameters contribute no query key. -/
theorem buildUrl_query_structure (baseUrl apiKey endpoint : String)
    (payload : List (String × JsVal)) :
    ∃ q, buildUrl baseUrl apiKey endpoint payload
        = baseUrl ++ endpoint ++ "?" ++ q ∧
      queryPairs q = (("key", apiKey) :: definedPairs payload).map
        (fun p => (formEncode p.1, formEncode p.2)) := by
  refine ⟨renderQuery (("key", apiKey) :: definedPairs payload), ?_, ?_⟩
  · unfold buildUrl
    rw [appendParams_eq]
    rfl
  · exact queryPairs_renderQuery _ _

/-- Witness for C9: a one-object heap; overwriting the copy's apiKey
leaves the manager's stored credential intact. -/
theorem getConfig_returns_copy_witness :
    readManagerConfig
      (writeRef (getConfigAlloc ⟨[⟨"k", "b", "en", "USD", 30000, 3, 1000⟩], 0⟩).2
        (getConfigAlloc ⟨[⟨"k", "b", "en", "USD", 30000, 3, 1000⟩], 0⟩).1
        ⟨"modified", "b", "en", "USD", 30000, 3, 1000⟩)
      = readManagerConfig ⟨[⟨"k", "b", "en", "USD", 30000, 3, 1000⟩], 0⟩ :=
  (getConfig_returns_copy ⟨[⟨"k", "b", "en", "USD", 30000, 3, 1000⟩], 0⟩
    (by simp) ⟨"modified", "b", "en", "USD", 30000, 3, 1000⟩).2.2

end TripAdvisor
